import Mathlib

/-!
Shallow embedding of the Luau C wrapper (src/luau/c/luau_wrapper.cpp and
luau_wrapper.h) of the giztoy repository.

The wrapper manages an opaque guest-VM handle behind a flat C interface.
The guest VM itself (lua.h / lualib.h / luacode.h) is an external
dependency that is not part of the repository sources; following the
specification, which treats it as an opaque collaborator, its primitives
are modelled here by a concrete value-stack machine (values, stack slots
with the 1-based / negative indexing convention, tables, globals) and the
compiler / loader / protected-call services are modelled as explicit
oracle parameters, so that every wrapper function can be stated and
evaluated on concrete inputs.

Conventions of the model:
- a C pointer that may be NULL becomes an Option;
- the C type uint64_t becomes Nat (stated bounds where relevant),
  int64_t becomes Int, and C integral casts become explicit wrap
  functions;
- a C double payload is carried opaquely by its 64-bit pattern (the
  wrapper never inspects or computes with the floating-point value,
  it only passes it through);
- byte strings (which may contain embedded zero bytes) are lists of
  bytes, and std::string fields are Lean strings.
-/

namespace Luau

/-- Byte strings as exchanged over the C boundary (may contain 0 bytes). -/
abbrev Bytes := List Nat

/-- Model of a guest VM number. The guest distinguishes values pushed as
integers (lua_pushinteger) from values pushed as doubles (lua_pushnumber);
the double payload is carried opaquely by its bit pattern, because the
wrapper only passes it through. -/
inductive LuaNum where
  | int (n : Int)
  | dbl (bits : Nat)
deriving DecidableEq, Repr

/-- Model of a guest VM value (one stack slot). Closures record which
trampoline they carry: an external-callback closure captures its two
upvalues (external_func_wrapper), a plain C-function closure captures the
function pointer modelled as a numeric token (cfunc_wrapper), and
loadedfn is the function object produced by a successful luau_load. -/
inductive LuaValue where
  | nil
  | boolean (b : Bool)
  | number (x : LuaNum)
  | str (s : Bytes)
  | table (id : Nat)
  | extclosure (u1 u2 : LuaValue)
  | cclosure (fnId : Nat)
  | loadedfn (bc : Bytes)
deriving DecidableEq, Repr

/-- Model of the guest VM state behind lua_State*: the value stack
(head of the list is the BOTTOM slot, index 1), the table heap, the
global table, and the two garbage-collector memory counters surfaced by
lua_gc(LUA_GCCOUNT) (whole kilobytes) and lua_gc(LUA_GCCOUNTB)
(sub-kilobyte remainder). -/
structure VM where
  stack : List LuaValue
  tables : List (List (LuaValue × LuaValue))
  globals : List (String × LuaValue)
  gcKB : Nat
  gcB : Nat
deriving DecidableEq, Repr

/-- The bridge-side wrapper struct LuauState: owned VM handle (L),
last-error text, whether an external dispatcher is registered
(externalCallback != nullptr; the dispatcher function itself is passed
as an explicit parameter where it is invoked), and the scratch field
holding the id of the callback currently executing. -/
structure LuauStateD where
  L : Option VM
  lastError : String
  hasExternalCallback : Bool
  currentCallbackId : Nat
deriving DecidableEq, Repr

/-- The host-registered dispatcher (LuauExternalCallback): receives the
wrapper and the callback id, returns the declared result count and the
wrapper as it left it. -/
abbrev LuauExternalCallback := LuauStateD → Nat → Int × LuauStateD

/-- Error codes of the wrapper (LuauError in luau_wrapper.h). -/
inductive LuauError where
  | LUAU_OK
  | LUAU_ERR_COMPILE
  | LUAU_ERR_RUNTIME
  | LUAU_ERR_MEMORY
  | LUAU_ERR_INVALID
deriving DecidableEq, Repr

/-- Value types of the wrapper (LuauType in luau_wrapper.h). -/
inductive LuauType where
  | LUAU_TYPE_NIL
  | LUAU_TYPE_BOOLEAN
  | LUAU_TYPE_NUMBER
  | LUAU_TYPE_STRING
  | LUAU_TYPE_TABLE
  | LUAU_TYPE_FUNCTION
  | LUAU_TYPE_USERDATA
  | LUAU_TYPE_THREAD
  | LUAU_TYPE_BUFFER
  | LUAU_TYPE_VECTOR
deriving DecidableEq, Repr

/-! ### Guest VM primitives (modelled)

Modelled from the spec: the lua_* primitives live in the external guest
VM, which the repository does not contain; §3 and §4.3 of the spec fix
the stack-indexing convention (1-based from the bottom, negative from the
top) and the read conventions (type-mismatch reads yield zero/absence).
Metamethod dispatch and string/number coercions are guest-internal
behavior that no claim exercises; they are not modelled. -/

/-- Resolve a stack index to a list position: 1-based from the bottom for
positive indices, -1 is the top for negative indices. -/
def resolveIdx (vm : VM) (idx : Int) : Option Nat :=
  let n : Int := vm.stack.length
  if 0 < idx ∧ idx ≤ n then some (idx.toNat - 1)
  else if idx < 0 ∧ 0 ≤ n + idx then some (n + idx).toNat
  else none

/-- Read the slot at a stack index; an invalid index reads as nil
(the guest answers queries on absent slots with nil/none). -/
def slotAt (vm : VM) (idx : Int) : LuaValue :=
  match resolveIdx vm idx with
  | some i => vm.stack.getD i .nil
  | none => .nil

/-- Push a value on top of the stack. -/
def vmPush (v : LuaValue) (vm : VM) : VM :=
  { vm with stack := vm.stack ++ [v] }

/-- lua_gettop: number of occupied stack slots. -/
def lua_gettop (vm : VM) : Int := vm.stack.length

/-- lua_settop: truncate the stack to idx slots, or extend it with nil;
negative idx counts from the top (settop(-1) keeps the stack as is). -/
def lua_settop (vm : VM) (idx : Int) : VM :=
  let n : Int := vm.stack.length
  let target : Int := if 0 ≤ idx then idx else n + idx + 1
  let t := target.toNat
  { vm with stack := vm.stack.take t ++ List.replicate (t - vm.stack.length) .nil }

/-- lua_pop(n) is the macro lua_settop(-(n)-1). -/
def lua_pop (vm : VM) (n : Int) : VM := lua_settop vm (-n - 1)

/-- lua_pushvalue: push a copy of the slot at idx. -/
def lua_pushvalue (vm : VM) (idx : Int) : VM := vmPush (slotAt vm idx) vm

/-- lua_remove: delete the slot at idx, shifting the slots above it down. -/
def lua_remove (vm : VM) (idx : Int) : VM :=
  match resolveIdx vm idx with
  | some i => { vm with stack := vm.stack.take i ++ vm.stack.drop (i + 1) }
  | none => vm

/-- lua_insert: move the top value into position idx, shifting up. -/
def lua_insert (vm : VM) (idx : Int) : VM :=
  match vm.stack.getLast? with
  | none => vm
  | some v =>
    match resolveIdx vm idx with
    | some i =>
      let rest := vm.stack.dropLast
      { vm with stack := rest.take i ++ [v] ++ rest.drop i }
    | none => vm

/-- lua_type of a slot, already folded through the switch in the
wrapper's luau_type (userdata/lightuserdata, thread, buffer, vector do
not occur among modelled values; an absent slot reads as nil, matching
the default branch of the switch). -/
def luaTypeOf (v : LuaValue) : LuauType :=
  match v with
  | .nil => .LUAU_TYPE_NIL
  | .boolean _ => .LUAU_TYPE_BOOLEAN
  | .number _ => .LUAU_TYPE_NUMBER
  | .str _ => .LUAU_TYPE_STRING
  | .table _ => .LUAU_TYPE_TABLE
  | .extclosure _ _ => .LUAU_TYPE_FUNCTION
  | .cclosure _ => .LUAU_TYPE_FUNCTION
  | .loadedfn _ => .LUAU_TYPE_FUNCTION

/-- lua_toboolean: nil and false are falsy, everything else truthy. -/
def lua_tobooleanVal (v : LuaValue) : Int :=
  match v with
  | .nil => 0
  | .boolean b => if b then 1 else 0
  | _ => 1

/-- lua_tointeger on a value. Modelled from the spec: integer reads of a
value pushed as an integer return it; a type mismatch yields 0 (header:
Returns 0 if not a number). The guest's double-to-integer and
string-to-number coercions are external behavior no claim exercises and
are folded into the 0 branch. -/
def lua_tointegerVal (v : LuaValue) : Int :=
  match v with
  | .number (.int n) => n
  | _ => 0

/-- lua_tonumber on a value, as the bit pattern of the returned double.
Modelled from the spec: a value pushed as a double reads back as that
double; a type mismatch yields 0.0 (whose bit pattern is 0). The guest's
integer-to-double and string coercions are external behavior no claim
exercises and are folded into the 0 branch. -/
def lua_tonumberVal (v : LuaValue) : Nat :=
  match v with
  | .number (.dbl b) => b
  | _ => 0

/-- Decode guest string bytes into the host std::string model. -/
def decodeBytes (s : Bytes) : String :=
  String.mk (s.map Char.ofNat)

/-- Encode a host C string literal as guest string bytes. -/
def encodeStr (s : String) : Bytes :=
  s.data.map Char.toNat

/-- Association lookup in a modelled table. -/
def tblLookup (pairs : List (LuaValue × LuaValue)) (k : LuaValue) : LuaValue :=
  match pairs.find? (fun p => p.1 = k) with
  | some p => p.2
  | none => .nil

/-- Association update in a modelled table; storing nil removes the key. -/
def tblStore (pairs : List (LuaValue × LuaValue)) (k v : LuaValue) :
    List (LuaValue × LuaValue) :=
  let rest := pairs.filter (fun p => p.1 ≠ k)
  match v with
  | .nil => rest
  | _ => rest ++ [(k, v)]

/-- Table pairs reachable from the slot at idx (absent/non-table: none). -/
def tablePairsAt (vm : VM) (idx : Int) : Option (Nat × List (LuaValue × LuaValue)) :=
  match slotAt vm idx with
  | .table id => some (id, vm.tables.getD id [])
  | _ => none

/-- Raw table read: key on top is replaced by the looked-up value. -/
def lua_rawget (vm : VM) (idx : Int) : VM :=
  match tablePairsAt vm idx with
  | some (_, pairs) =>
    let k := slotAt vm (-1)
    vmPush (tblLookup pairs k) (lua_pop vm 1)
  | none => vm

/-- Raw table write: key and value on top are popped and stored. -/
def lua_rawset (vm : VM) (idx : Int) : VM :=
  match tablePairsAt vm idx with
  | some (id, pairs) =>
    let v := slotAt vm (-1)
    let k := slotAt vm (-2)
    let vm1 := lua_pop vm 2
    { vm1 with tables := vm1.tables.set id (tblStore pairs k v) }
  | none => vm

/-- lua_getfield / lua_getglobal read path (metamethods not modelled). -/
def lua_getfieldByKey (vm : VM) (idx : Int) (key : String) : VM :=
  match tablePairsAt vm idx with
  | some (_, pairs) => vmPush (tblLookup pairs (.str (encodeStr key))) vm
  | none => vmPush .nil vm

/-- lua_setfield write path: pops the value on top and stores it under a
string key (metamethods not modelled). -/
def lua_setfieldByKey (vm : VM) (idx : Int) (key : String) : VM :=
  match tablePairsAt vm idx with
  | some (id, pairs) =>
    let v := slotAt vm (-1)
    let vm1 := lua_pop vm 1
    { vm1 with tables := vm1.tables.set id (tblStore pairs (.str (encodeStr key)) v) }
  | none => lua_pop vm 1

/-- lua_rawgeti: push the entry stored under integer key n. -/
def lua_rawgeti (vm : VM) (idx : Int) (n : Int) : VM :=
  match tablePairsAt vm idx with
  | some (_, pairs) => vmPush (tblLookup pairs (.number (.int n))) vm
  | none => vmPush .nil vm

/-- lua_rawseti: pop the value on top and store it under integer key n. -/
def lua_rawseti (vm : VM) (idx : Int) (n : Int) : VM :=
  match tablePairsAt vm idx with
  | some (id, pairs) =>
    let v := slotAt vm (-1)
    let vm1 := lua_pop vm 1
    { vm1 with tables := vm1.tables.set id (tblStore pairs (.number (.int n)) v) }
  | none => lua_pop vm 1

/-- lua_objlen: length of a string, entry count of a modelled table. -/
def lua_objlen (vm : VM) (idx : Int) : Nat :=
  match slotAt vm idx with
  | .str s => s.length
  | .table id => (vm.tables.getD id []).length
  | _ => 0

/-- Successor of a key in the modelled iteration order. -/
def findNextPair (pairs : List (LuaValue × LuaValue)) (k : LuaValue) :
    Option (LuaValue × LuaValue) :=
  match pairs with
  | [] => none
  | p :: rest => if p.1 = k then rest.head? else findNextPair rest k

/-- lua_next: consume the key on top and push the next key/value pair,
returning 1, or return 0 at exhaustion. -/
def lua_next (vm : VM) (idx : Int) : Int × VM :=
  match tablePairsAt vm idx with
  | some (_, pairs) =>
    let k := slotAt vm (-1)
    let vm1 := lua_pop vm 1
    let step := match k with
      | .nil => pairs.head?
      | _ => findNextPair pairs k
    match step with
    | some p => (1, vmPush p.2 (vmPush p.1 vm1))
    | none => (0, vm1)
  | none => (0, lua_pop vm 1)

/-- lua_createtable / lua_newtable: allocate a fresh empty table (the
narr/nrec arguments are preallocation hints with no observable effect)
and push a reference to it. -/
def lua_createtable (vm : VM) : VM :=
  let id := vm.tables.length
  vmPush (.table id) { vm with tables := vm.tables ++ [[]] }

/-- lua_getglobal: push the value of a global (nil when absent). -/
def lua_getglobal (vm : VM) (name : String) : VM :=
  match vm.globals.find? (fun p => p.1 = name) with
  | some p => vmPush p.2 vm
  | none => vmPush .nil vm

/-- lua_setglobal: pop the top value into the global table. -/
def lua_setglobal (vm : VM) (name : String) : VM :=
  let v := slotAt vm (-1)
  let vm1 := lua_pop vm 1
  { vm1 with globals := vm1.globals.filter (fun p => p.1 ≠ name) ++ [(name, v)] }

/-! ### Integral casts across the boundary -/

/-- static_cast of an unsigned value to the 32-bit C int (two's
complement wraparound). -/
def intCast32 (n : Nat) : Int :=
  let m : Nat := n % 2 ^ 32
  if m < 2 ^ 31 then (m : Int) else (m : Int) - 2 ^ 32

/-- static_cast of an integer value to uint32_t (reduction mod 2^32). -/
def u32cast (n : Int) : Nat :=
  (n % (2 ^ 32)).toNat

/-! ### Wrapper combinators

Every wrapper entry point begins with the guard
if (!L || !L->L) return default; these two combinators factor that
pattern: readVM for value-returning calls, modVM for state-mutating
calls (a NULL wrapper stays NULL, a wrapper with a null inner handle is
returned unchanged). -/

/-- Run a VM read under the null guards, returning d when either the
wrapper pointer or its inner handle is null. -/
def readVM {α : Type} (s : Option LuauStateD) (d : α) (f : VM → α) : α :=
  match s with
  | none => d
  | some st =>
    match st.L with
    | none => d
    | some vm => f vm

/-- Run a VM mutation under the null guards; the wrapper metadata is
kept, only the inner VM is replaced. -/
def modVM (s : Option LuauStateD) (f : VM → VM) : Option LuauStateD :=
  match s with
  | none => none
  | some st =>
    match st.L with
    | none => some st
    | some vm => some { st with L := some (f vm) }

/-! ### Stack operations (wrapper) -/

/-- luau_gettop. -/
def luau_gettop (s : Option LuauStateD) : Int :=
  readVM s 0 lua_gettop

/-- luau_settop. -/
def luau_settop (s : Option LuauStateD) (idx : Int) : Option LuauStateD :=
  modVM s (fun vm => lua_settop vm idx)

/-- luau_pop. -/
def luau_pop (s : Option LuauStateD) (n : Int) : Option LuauStateD :=
  modVM s (fun vm => lua_pop vm n)

/-- luau_pushvalue. -/
def luau_pushvalue (s : Option LuauStateD) (idx : Int) : Option LuauStateD :=
  modVM s (fun vm => lua_pushvalue vm idx)

/-- luau_remove. -/
def luau_remove (s : Option LuauStateD) (idx : Int) : Option LuauStateD :=
  modVM s (fun vm => lua_remove vm idx)

/-- luau_insert. -/
def luau_insert (s : Option LuauStateD) (idx : Int) : Option LuauStateD :=
  modVM s (fun vm => lua_insert vm idx)

/-! ### Type checking (wrapper) -/

/-- luau_type: the null guard answers LUAU_TYPE_NIL. -/
def luau_type (s : Option LuauStateD) (idx : Int) : LuauType :=
  readVM s .LUAU_TYPE_NIL (fun vm => luaTypeOf (slotAt vm idx))

/-- luau_typename: the null guard answers the string unknown; otherwise
the guest's canonical name of the type tag. -/
def luau_typename (s : Option LuauStateD) (t : LuauType) : String :=
  readVM s "unknown" (fun _ =>
    match t with
    | .LUAU_TYPE_NIL => "nil"
    | .LUAU_TYPE_BOOLEAN => "boolean"
    | .LUAU_TYPE_NUMBER => "number"
    | .LUAU_TYPE_STRING => "string"
    | .LUAU_TYPE_TABLE => "table"
    | .LUAU_TYPE_FUNCTION => "function"
    | .LUAU_TYPE_USERDATA => "userdata"
    | .LUAU_TYPE_THREAD => "thread"
    | .LUAU_TYPE_BUFFER => "buffer"
    | .LUAU_TYPE_VECTOR => "vector")

/-- luau_isnil: the null guard answers 1 (an absent slot is nil). -/
def luau_isnil (s : Option LuauStateD) (idx : Int) : Int :=
  readVM s 1 (fun vm => if slotAt vm idx = .nil then 1 else 0)

/-- luau_isboolean. -/
def luau_isboolean (s : Option LuauStateD) (idx : Int) : Int :=
  readVM s 0 (fun vm => if luaTypeOf (slotAt vm idx) = .LUAU_TYPE_BOOLEAN then 1 else 0)

/-- luau_isnumber. -/
def luau_isnumber (s : Option LuauStateD) (idx : Int) : Int :=
  readVM s 0 (fun vm => if luaTypeOf (slotAt vm idx) = .LUAU_TYPE_NUMBER then 1 else 0)

/-- luau_isstring. -/
def luau_isstring (s : Option LuauStateD) (idx : Int) : Int :=
  readVM s 0 (fun vm => if luaTypeOf (slotAt vm idx) = .LUAU_TYPE_STRING then 1 else 0)

/-- luau_istable. -/
def luau_istable (s : Option LuauStateD) (idx : Int) : Int :=
  readVM s 0 (fun vm => if luaTypeOf (slotAt vm idx) = .LUAU_TYPE_TABLE then 1 else 0)

/-- luau_isfunction. -/
def luau_isfunction (s : Option LuauStateD) (idx : Int) : Int :=
  readVM s 0 (fun vm => if luaTypeOf (slotAt vm idx) = .LUAU_TYPE_FUNCTION then 1 else 0)

/-! ### Push values (wrapper) -/

/-- luau_pushnil. -/
def luau_pushnil (s : Option LuauStateD) : Option LuauStateD :=
  modVM s (vmPush .nil)

/-- luau_pushboolean. -/
def luau_pushboolean (s : Option LuauStateD) (b : Int) : Option LuauStateD :=
  modVM s (vmPush (.boolean (b ≠ 0)))

/-- luau_pushnumber: the double payload is pushed through unmodified. -/
def luau_pushnumber (s : Option LuauStateD) (bits : Nat) : Option LuauStateD :=
  modVM s (vmPush (.number (.dbl bits)))

/-- luau_pushinteger: lua_pushinteger(static_cast of lua_Integer of n).
Modelled from the spec: lua_Integer is the guest's native integer type,
taken per §4.3 (the marshalling layer carries 64-bit integers) to hold
the int64_t argument losslessly, so the cast is the identity on the
64-bit range. -/
def luau_pushinteger (s : Option LuauStateD) (n : Int) : Option LuauStateD :=
  modVM s (vmPush (.number (.int n)))

/-- luau_pushstring: a NULL pointer pushes nil, otherwise the bytes up
to the first zero byte (strlen semantics of lua_pushstring). -/
def luau_pushstring (s : Option LuauStateD) (str : Option Bytes) : Option LuauStateD :=
  modVM s (fun vm =>
    match str with
    | some bs => vmPush (.str (bs.takeWhile (fun b => b ≠ 0))) vm
    | none => vmPush .nil vm)

/-- luau_pushlstring: a NULL pointer pushes nil, otherwise exactly len
bytes are copied, embedded zero bytes included. -/
def luau_pushlstring (s : Option LuauStateD) (str : Option Bytes) (len : Nat) :
    Option LuauStateD :=
  modVM s (fun vm =>
    match str with
    | some bs => vmPush (.str (bs.take len)) vm
    | none => vmPush .nil vm)

/-- luau_pushcfunction: a null wrapper, handle, or function pointer is a
no-op; otherwise a closure over cfunc_wrapper capturing the function
pointer (modelled by its token) is pushed. -/
def luau_pushcfunction (s : Option LuauStateD) (fn : Option Nat) : Option LuauStateD :=
  match fn with
  | none => match s with
            | none => none
            | some st => some st
  | some fnId => modVM s (vmPush (.cclosure fnId))

/-! ### Read values (wrapper) -/

/-- luau_toboolean. -/
def luau_toboolean (s : Option LuauStateD) (idx : Int) : Int :=
  readVM s 0 (fun vm => lua_tobooleanVal (slotAt vm idx))

/-- luau_tonumber (result carried as the double's bit pattern; the null
guard returns 0.0, whose pattern is 0). -/
def luau_tonumber (s : Option LuauStateD) (idx : Int) : Nat :=
  readVM s 0 (fun vm => lua_tonumberVal (slotAt vm idx))

/-- luau_tointeger: static_cast of int64_t of the guest read; with the
guest integer modelled at 64 bits the cast is the identity. -/
def luau_tointeger (s : Option LuauStateD) (idx : Int) : Int :=
  readVM s 0 (fun vm => lua_tointegerVal (slotAt vm idx))

/-- luau_tostring: NULL unless the slot holds a string. -/
def luau_tostring (s : Option LuauStateD) (idx : Int) : Option Bytes :=
  readVM s none (fun vm =>
    match slotAt vm idx with
    | .str bs => some bs
    | _ => none)

/-- luau_strlen (lua_objlen of the slot). -/
def luau_strlen (s : Option LuauStateD) (idx : Int) : Nat :=
  readVM s 0 (fun vm => lua_objlen vm idx)

/-- luau_tolstring: pointer plus length out-parameter; the null guard
writes 0 to the length and returns NULL, a type mismatch likewise. -/
def luau_tolstring (s : Option LuauStateD) (idx : Int) : Option Bytes × Nat :=
  readVM s (none, 0) (fun vm =>
    match slotAt vm idx with
    | .str bs => (some bs, bs.length)
    | _ => (none, 0))

/-! ### Table and global operations (wrapper) -/

/-- luau_newtable. -/
def luau_newtable (s : Option LuauStateD) : Option LuauStateD :=
  modVM s lua_createtable

/-- luau_createtable (narr/nrec are preallocation hints only). -/
def luau_createtable (s : Option LuauStateD) (narr nrec : Int) : Option LuauStateD :=
  modVM s (fun vm =>
    let _ := narr
    let _ := nrec
    lua_createtable vm)

/-- luau_getfield: a null key is also guarded as a no-op. -/
def luau_getfield (s : Option LuauStateD) (idx : Int) (key : Option String) :
    Option LuauStateD :=
  match key with
  | none => match s with
            | none => none
            | some st => some st
  | some k => modVM s (fun vm => lua_getfieldByKey vm idx k)

/-- luau_setfield: a null key is also guarded as a no-op. -/
def luau_setfield (s : Option LuauStateD) (idx : Int) (key : Option String) :
    Option LuauStateD :=
  match key with
  | none => match s with
            | none => none
            | some st => some st
  | some k => modVM s (fun vm => lua_setfieldByKey vm idx k)

/-- luau_gettable (metamethod dispatch is guest behavior, not modelled:
acts as the raw read). -/
def luau_gettable (s : Option LuauStateD) (idx : Int) : Option LuauStateD :=
  modVM s (fun vm => lua_rawget vm idx)

/-- luau_settable (metamethod dispatch is guest behavior, not modelled:
acts as the raw write). -/
def luau_settable (s : Option LuauStateD) (idx : Int) : Option LuauStateD :=
  modVM s (fun vm => lua_rawset vm idx)

/-- luau_rawget. -/
def luau_rawget (s : Option LuauStateD) (idx : Int) : Option LuauStateD :=
  modVM s (fun vm => lua_rawget vm idx)

/-- luau_rawset. -/
def luau_rawset (s : Option LuauStateD) (idx : Int) : Option LuauStateD :=
  modVM s (fun vm => lua_rawset vm idx)

/-- luau_rawgeti. -/
def luau_rawgeti (s : Option LuauStateD) (idx : Int) (n : Int) : Option LuauStateD :=
  modVM s (fun vm => lua_rawgeti vm idx n)

/-- luau_rawseti. -/
def luau_rawseti (s : Option LuauStateD) (idx : Int) (n : Int) : Option LuauStateD :=
  modVM s (fun vm => lua_rawseti vm idx n)

/-- luau_objlen. -/
def luau_objlen (s : Option LuauStateD) (idx : Int) : Nat :=
  readVM s 0 (fun vm => lua_objlen vm idx)

/-- luau_next: also mutates the stack; returned flag and new state. -/
def luau_next (s : Option LuauStateD) (idx : Int) : Int × Option LuauStateD :=
  match s with
  | none => (0, none)
  | some st =>
    match st.L with
    | none => (0, some st)
    | some vm =>
      let r := lua_next vm idx
      (r.1, some { st with L := some r.2 })

/-- luau_getglobal: a null name is also guarded as a no-op. -/
def luau_getglobal (s : Option LuauStateD) (name : Option String) : Option LuauStateD :=
  match name with
  | none => match s with
            | none => none
            | some st => some st
  | some nm => modVM s (fun vm => lua_getglobal vm nm)

/-- luau_setglobal: a null name is also guarded as a no-op. -/
def luau_setglobal (s : Option LuauStateD) (name : Option String) : Option LuauStateD :=
  match name with
  | none => match s with
            | none => none
            | some st => some st
  | some nm => modVM s (fun vm => lua_setglobal vm nm)

/-! ### External callback support -/

/-- luau_setexternalcallback: guarded only on the wrapper pointer; the
dispatcher slot is bridge metadata, no VM access is needed. Registering
replaces the previous dispatcher (at most one per wrapper). -/
def luau_setexternalcallback (s : Option LuauStateD) (registered : Bool) :
    Option LuauStateD :=
  match s with
  | none => none
  | some st => some { st with hasExternalCallback := registered }

/-- luau_getcallbackid: guarded only on the wrapper pointer; 0 is the
sentinel outside any dispatched call. -/
def luau_getcallbackid (s : Option LuauStateD) : Nat :=
  match s with
  | none => 0
  | some st => st.currentCallbackId

/-- The two integers captured as closure upvalues by
luau_pushexternalfunc: the low and high 32-bit halves of the callback
id, each pushed through static_cast of int. -/
def extUpvalLow (callback_id : Nat) : LuaValue :=
  .number (.int (intCast32 (callback_id &&& 0xFFFFFFFF)))

/-- High half counterpart of extUpvalLow. -/
def extUpvalHigh (callback_id : Nat) : LuaValue :=
  .number (.int (intCast32 (callback_id >>> 32)))

/-- luau_pushexternalfunc: pushes the two halves of the callback id and
wraps them with lua_pushcclosure into a closure over
external_func_wrapper (the model records the net effect: the closure
with its two captured upvalues). -/
def luau_pushexternalfunc (s : Option LuauStateD) (callback_id : Nat) :
    Option LuauStateD :=
  modVM s (vmPush (.extclosure (extUpvalLow callback_id) (extUpvalHigh callback_id)))

/-- Reconstruction of the 64-bit callback id performed by the trampoline:
each upvalue is read back with lua_tointeger, cast to uint32_t, and the
two halves are recombined as (high shifted left by 32) bitor low. -/
def reconId (u1 u2 : LuaValue) : Nat :=
  let id_low := u32cast (lua_tointegerVal u1)
  let id_high := u32cast (lua_tointegerVal u2)
  (id_high <<< 32) ||| id_low

/-- external_func_wrapper: the single trampoline installed in every
external closure. It recovers the owning wrapper through the registry
(modelled by the recovered parameter: none when the lookup fails),
bails out with zero results when there is no wrapper or no registered
dispatcher, otherwise reconstructs the callback id from the two
upvalues, records it in the scratch field, invokes the dispatcher cb,
clears the scratch field and returns the dispatcher's result count. -/
def external_func_wrapper (cb : LuauExternalCallback)
    (recovered : Option LuauStateD) (u1 u2 : LuaValue) : Int × Option LuauStateD :=
  match recovered with
  | none => (0, none)
  | some state =>
    if state.hasExternalCallback = false then (0, some state)
    else
      let callback_id := reconId u1 u2
      let s1 := { state with currentCallbackId := callback_id }
      let r := cb s1 callback_id
      (r.1, some { r.2 with currentCallbackId := 0 })

/-! ### Error handling (wrapper) -/

/-- luau_geterror: NULL when the wrapper is null or no error is stored
(absence, not an empty string). -/
def luau_geterror (s : Option LuauStateD) : Option String :=
  match s with
  | none => none
  | some st => if st.lastError = "" then none else some st.lastError

/-- luau_clearerror: guarded only on the wrapper pointer. -/
def luau_clearerror (s : Option LuauStateD) : Option LuauStateD :=
  match s with
  | none => none
  | some st => some { st with lastError := "" }

/-- luau_error: under the null guards it records the message, pushes it
and raises (the raise is a non-local transfer into the guest, modelled
by the returned flag). -/
def luau_error (s : Option LuauStateD) (msg : Option String) :
    (Option LuauStateD) × Bool :=
  match s with
  | none => (none, false)
  | some st =>
    match st.L with
    | none => (some st, false)
    | some vm =>
      match msg with
      | some m =>
        (some { st with lastError := m, L := some (vmPush (.str (encodeStr m)) vm) },
         true)
      | none => (some { st with L := some vm }, true)

/-! ### Memory management (wrapper) -/

/-- luau_memoryusage: whole kilobytes (lua_gc LUA_GCCOUNT) times 1024
plus the sub-kilobyte remainder (lua_gc LUA_GCCOUNTB); 0 under the null
guards. -/
def luau_memoryusage (s : Option LuauStateD) : Nat :=
  readVM s 0 (fun vm => vm.gcKB * 1024 + vm.gcB)

/-- luau_gc: triggers a full collection cycle; the collection itself is
guest-internal and leaves the modelled observable state unchanged. -/
def luau_gc (s : Option LuauStateD) : Option LuauStateD :=
  modVM s (fun vm => vm)

/-! ### Debug utilities (wrapper) -/

/-- Render one stack slot the way luau_dumpstack does (the numeric
rendering of the guest's std::to_string is modelled by the decimal
rendering of the model payload; no claim depends on its exact text). -/
def dumpSlot (v : LuaValue) : String :=
  match v with
  | .str bs => "string: \"" ++ decodeBytes bs ++ "\""
  | .boolean b => if b then "boolean: true" else "boolean: false"
  | .number (.int n) => "number: " ++ toString n
  | .number (.dbl bits) => "number: " ++ toString bits
  | .nil => "nil"
  | .table _ => "table"
  | .extclosure _ _ => "function"
  | .cclosure _ => "function"
  | .loadedfn _ => "function"

/-- Body of luau_dumpstack for a live VM. -/
def dumpVM (vm : VM) : String :=
  "Stack size: " ++ toString vm.stack.length ++ "\n" ++
    String.join ((List.range vm.stack.length).map (fun i =>
      "[" ++ toString (i + 1) ++ "] " ++ dumpSlot (vm.stack.getD i .nil) ++ "\n"))

/-- luau_dumpstack: under the null guards a freshly allocated empty
string is returned (allocation failure is not modelled). -/
def luau_dumpstack (s : Option LuauStateD) : String :=
  readVM s "" dumpVM

/-- luau_checkstack: 0 under the null guards; stack growth for a live VM
always succeeds in the model (guest allocation is external). -/
def luau_checkstack (s : Option LuauStateD) (extra : Int) : Int :=
  readVM s 0 (fun vm =>
    let _ := vm
    let _ := extra
    1)

/-! ### Compile / load / protected-call pipeline

Modelled from the spec: the guest compiler (luacode.h), the bytecode
loader (luau_load of lua.h) and the protected call (lua_pcall) are
external services of the opaque guest VM; §4.2 fixes their observable
contract, which the oracles below reproduce: the compiler returns a
bytecode buffer or a null buffer; the loader either pushes the loaded
function object or pushes an error value; the protected call consumes
the function and arguments and either pushes the results or pushes the
error value. -/

/-- The guest compiler service: source bytes and optimization level to
either a bytecode buffer or a null buffer. -/
structure GuestCompiler where
  compile : Bytes → Int → Option Bytes

/-- The guest runtime services: load yields the error value pushed on
failure or the function value pushed on success; call takes the function
value and the argument slots and yields the error value or the result
slots. -/
structure GuestRuntime where
  load : String → Bytes → Except LuaValue LuaValue
  call : LuaValue → List LuaValue → Except LuaValue (List LuaValue)

/-- luau_load of the guest: returns the status int (0 on success) and
leaves the loaded function (success) or the error value (failure)
pushed. -/
def lua_load (rt : GuestRuntime) (vm : VM) (chunkname : String) (bc : Bytes) :
    Int × VM :=
  match rt.load chunkname bc with
  | .ok f => (0, vmPush f vm)
  | .error e => (1, vmPush e vm)

/-- lua_pcall of the guest: the function sits nargs slots below the top;
on success function and arguments are replaced by the results (all of
them for nresults = LUA_MULTRET = -1, otherwise truncated or padded with
nil to exactly nresults), on failure by the single error value. A stack
too short to hold function plus arguments is caller misuse; the model
reports failure without touching the stack. -/
def lua_pcall (rt : GuestRuntime) (vm : VM) (nargs nresults : Int) : Int × VM :=
  let n := vm.stack.length
  let na := nargs.toNat
  if na + 1 ≤ n then
    let base := n - na - 1
    let f := vm.stack.getD base .nil
    let args := vm.stack.drop (base + 1)
    let rest := vm.stack.take base
    match rt.call f args with
    | .ok vals =>
      let outs := if nresults < 0 then vals
        else vals.take nresults.toNat ++
          List.replicate (nresults.toNat - vals.length) .nil
      (0, { vm with stack := rest ++ outs })
    | .error e => (2, { vm with stack := rest ++ [e] })
  else (2, vm)

/-- Error capture shared by the failure paths of luau_dostring,
luau_loadbytecode and luau_pcall: when the value on top is a string it
becomes the wrapper's last error and is popped; otherwise the default
message is stored and the value is left in place. -/
def captureTopError (defaultMsg : String) (st : LuauStateD) (vm : VM) : LuauStateD :=
  match slotAt vm (-1) with
  | .str bs => { st with lastError := decodeBytes bs, L := some (lua_pop vm 1) }
  | _ => { st with lastError := defaultMsg, L := some vm }

/-- Effective source length of luau_dostring: a zero source_len means
take the strlen of the buffer (bytes before the first zero byte). -/
def effSourceLen (src : Bytes) (source_len : Nat) : Nat :=
  if source_len = 0 then (src.takeWhile (fun b => b ≠ 0)).length else source_len

/-- luau_dostring: validate arguments, clear the last error, take the
strlen of the source when the given length is 0, default the chunk name,
compile, load, and run the chunk with zero arguments and LUA_MULTRET
results; compile failure and load failure return LUAU_ERR_COMPILE,
a runtime failure returns LUAU_ERR_RUNTIME. -/
def luau_dostring (comp : GuestCompiler) (rt : GuestRuntime)
    (s : Option LuauStateD) (source : Option Bytes) (source_len : Nat)
    (chunkname : Option String) (opt_level : Int) : LuauError × Option LuauStateD :=
  match s with
  | none => (.LUAU_ERR_INVALID, none)
  | some st =>
    match st.L with
    | none => (.LUAU_ERR_INVALID, some st)
    | some vm =>
      match source with
      | none => (.LUAU_ERR_INVALID, some st)
      | some src =>
        let st1 := { st with lastError := "" }
        let len := effSourceLen src source_len
        let cname := chunkname.getD "=chunk"
        match comp.compile (src.take len) opt_level with
        | none => (.LUAU_ERR_COMPILE, some { st1 with lastError := "Compilation failed" })
        | some bc =>
          let lr := lua_load rt vm cname bc
          if lr.1 ≠ 0 then
            (.LUAU_ERR_COMPILE, some (captureTopError "Load failed" st1 lr.2))
          else
            let cr := lua_pcall rt lr.2 0 (-1)
            if cr.1 ≠ 0 then
              (.LUAU_ERR_RUNTIME, some (captureTopError "Runtime error" st1 cr.2))
            else (.LUAU_OK, some { st1 with L := some cr.2 })

/-- luau_compile (the wrapper's five-argument overload): out_bc_ok and
out_len_ok model whether the two output pointers are non-null; the
second component of the result models the writes through them (none
means neither was written). A null compiler buffer or an empty buffer is
the compiler's own failure signal; additionally a non-empty buffer whose
first byte is zero is treated as an encoded compile error. In all three
cases the outputs are set to the well-defined empty result
(NULL buffer, 0 length). -/
def luau_compile (comp : GuestCompiler) (source : Option Bytes) (source_len : Nat)
    (opt_level : Int) (out_bc_ok out_len_ok : Bool) :
    LuauError × Option (Option Bytes × Nat) :=
  match source with
  | none => (.LUAU_ERR_INVALID, none)
  | some src =>
    if out_bc_ok = false ∨ out_len_ok = false then (.LUAU_ERR_INVALID, none)
    else
      match comp.compile (src.take source_len) opt_level with
      | none => (.LUAU_ERR_COMPILE, some (none, 0))
      | some bc =>
        if bc.length = 0 then (.LUAU_ERR_COMPILE, some (none, 0))
        else if bc.headD 0 = 0 then (.LUAU_ERR_COMPILE, some (none, 0))
        else (.LUAU_OK, some (some bc, bc.length))

/-- luau_loadbytecode: validate arguments, clear the last error, default
the chunk name and load; on success the loaded function object is left
pushed and LUAU_OK returned, on failure the error string is captured
into the last-error field and popped and LUAU_ERR_COMPILE returned. -/
def luau_loadbytecode (rt : GuestRuntime) (s : Option LuauStateD)
    (bytecode : Option Bytes) (bytecode_len : Nat) (chunkname : Option String) :
    LuauError × Option LuauStateD :=
  match s with
  | none => (.LUAU_ERR_INVALID, none)
  | some st =>
    match st.L with
    | none => (.LUAU_ERR_INVALID, some st)
    | some vm =>
      match bytecode with
      | none => (.LUAU_ERR_INVALID, some st)
      | some bc =>
        let st1 := { st with lastError := "" }
        let cname := chunkname.getD "=chunk"
        let lr := lua_load rt vm cname (bc.take bytecode_len)
        if lr.1 ≠ 0 then
          (.LUAU_ERR_COMPILE, some (captureTopError "Load failed" st1 lr.2))
        else (.LUAU_OK, some { st1 with L := some lr.2 })

/-- luau_pcall (wrapper): validate, clear the last error, run the
protected call; failure is normalized to the captured last-error string
plus LUAU_ERR_RUNTIME. -/
def luau_pcall (rt : GuestRuntime) (s : Option LuauStateD) (nargs nresults : Int) :
    LuauError × Option LuauStateD :=
  match s with
  | none => (.LUAU_ERR_INVALID, none)
  | some st =>
    match st.L with
    | none => (.LUAU_ERR_INVALID, some st)
    | some vm =>
      let st1 := { st with lastError := "" }
      let cr := lua_pcall rt vm nargs nresults
      if cr.1 ≠ 0 then
        (.LUAU_ERR_RUNTIME, some (captureTopError "Runtime error" st1 cr.2))
      else (.LUAU_OK, some { st1 with L := some cr.2 })

/-! ### Coroutine bridge

Modelled from the spec: the coroutine functions (luau_newthread,
luau_resume, luau_status and companions) are declared in luau_wrapper.h
but their implementation is not among the repository sources; §4.5 of
the spec and the header comments fix their contract, which is modelled
here: a coroutine carries a host-visible status and its own stack;
resuming drives the guest (an external execution, the exec oracle) until
it yields, completes or faults, except that a coroutine already in a
terminal error state is not driven at all and reports that same state. -/

/-- Coroutine status codes (LuauCoStatus in luau_wrapper.h; ERRSYN
models the syntax-error member of the enum). -/
inductive LuauCoStatus where
  | LUAU_COSTAT_OK
  | LUAU_COSTAT_YIELD
  | LUAU_COSTAT_ERRRUN
  | LUAU_COSTAT_ERRSYN
  | LUAU_COSTAT_ERRMEM
  | LUAU_COSTAT_ERRERR
  | LUAU_COSTAT_BREAK
deriving DecidableEq, Repr

/-- The terminal error states of a coroutine. -/
def isTerminalErrorStatus (st : LuauCoStatus) : Bool :=
  match st with
  | .LUAU_COSTAT_ERRRUN => true
  | .LUAU_COSTAT_ERRSYN => true
  | .LUAU_COSTAT_ERRMEM => true
  | .LUAU_COSTAT_ERRERR => true
  | _ => false

/-- A coroutine wrapper: host-visible status plus the coroutine's own
stack (the shared heap is not modelled; a coroutine wrapper owns only
this bridge-side shim). -/
structure LuauCoro where
  status : LuauCoStatus
  stack : List LuaValue
deriving DecidableEq, Repr

/-- The guest execution driven by a resume: consumes the pushed
arguments and ends in yield, completion or fault. External guest
behavior, supplied as an oracle. -/
abbrev CoroExec := LuauCoro → Nat → LuauCoStatus × LuauCoro

/-- Modelled from the spec: luau_resume. Resuming a coroutine already in
a terminal error state does not execute any guest code and reports the
same terminal state; otherwise the guest is driven by the exec oracle
until it yields, completes or faults. -/
def luau_resume (exec : CoroExec) (co : LuauCoro) (frm : Option LuauCoro)
    (nargs : Nat) : LuauCoStatus × LuauCoro :=
  let _ := frm
  if isTerminalErrorStatus co.status then (co.status, co)
  else exec co nargs

/-! ### Helper lemmas -/

/-- Casting a value through the 32-bit signed int and back through
uint32_t reduces it mod 2^32. -/
theorem u32cast_intCast32 (n : Nat) : u32cast (intCast32 n) = n % 2 ^ 32 := by
  simp only [u32cast, intCast32]
  split <;> omega

/-- Recombining disjoint halves: shifting the high word left by 32 and
taking bitwise or with a low word below 2^32 is plain addition. -/
theorem shiftLeft32_or_eq_add (a b : Nat) (hb : b < 2 ^ 32) :
    (a <<< 32) ||| b = 2 ^ 32 * a + b := by
  apply Nat.eq_of_testBit_eq
  intro i
  rw [Nat.testBit_or, Nat.testBit_shiftLeft, Nat.testBit_mul_pow_two_add a hb i]
  by_cases h : i < 32
  · have h2 : ¬(i ≥ 32) := by omega
    simp [h, h2]
  · have h2 : i ≥ 32 := by omega
    have hb2 : b < 2 ^ i :=
      lt_of_lt_of_le hb (Nat.pow_le_pow_right (by norm_num) h2)
    simp [h, h2, Nat.testBit_lt_two_pow hb2]

/-- The trampoline's reconstruction is the exact inverse of the
splitting performed by luau_pushexternalfunc, for every id in the
64-bit range. -/
theorem reconId_extUpval (K : Nat) (hK : K < 2 ^ 64) :
    reconId (extUpvalLow K) (extUpvalHigh K) = K := by
  have hmask : K &&& 0xFFFFFFFF = K % 2 ^ 32 := by
    have h32 : (0xFFFFFFFF : Nat) = 2 ^ 32 - 1 := by norm_num
    rw [h32, Nat.and_pow_two_sub_one_eq_mod]
  have hsh : K >>> 32 = K / 2 ^ 32 := Nat.shiftRight_eq_div_pow K 32
  have hhi : K / 2 ^ 32 < 2 ^ 32 := by omega
  simp only [reconId, extUpvalLow, extUpvalHigh, lua_tointegerVal]
  rw [u32cast_intCast32, u32cast_intCast32, hmask, hsh]
  rw [Nat.mod_eq_of_lt hhi, Nat.mod_mod_of_dvd K (dvd_refl (2 ^ 32))]
  rw [shiftLeft32_or_eq_add _ _ (Nat.mod_lt K (by norm_num))]
  exact Nat.div_add_mod K (2 ^ 32)

/-! ### Test fixtures used by the claim witnesses -/

/-- A concrete live VM. -/
def testVM : VM :=
  { stack := [], tables := [], globals := [], gcKB := 3, gcB := 200 }

/-- A concrete wrapper with a registered dispatcher. -/
def testState : LuauStateD :=
  { L := some testVM, lastError := "", hasExternalCallback := true,
    currentCallbackId := 0 }

/-- A concrete wrapper with no registered dispatcher. -/
def noCbState : LuauStateD :=
  { L := some testVM, lastError := "", hasExternalCallback := false,
    currentCallbackId := 0 }

/-- A concrete dispatcher that reports two results and records the id it
was handed in the last-error field (so the witness can observe it). -/
def testCb : LuauExternalCallback :=
  fun st id => (2, { st with lastError := toString id })

/-! ### Claim theorems -/

/-- C1: registering an external function under a 64-bit identifier K and
invoking it makes the trampoline reconstruct exactly K from the two
32-bit closure-captured halves and pass it to the dispatcher; the
dispatcher runs on a wrapper whose current-callback-id field holds K, so
luau_getcallbackid answers K during the call, and the wrapper state
after the call carries the sentinel 0 again. -/
theorem c1_external_callback_id (st : LuauStateD) (vm : VM)
    (cb : LuauExternalCallback) (K : Nat)
    (hK : K < 2 ^ 64) (hL : st.L = some vm) (hcb : st.hasExternalCallback = true) :
    luau_pushexternalfunc (some st) K =
      some { st with
        L := some (vmPush (.extclosure (extUpvalLow K) (extUpvalHigh K)) vm) } ∧
    reconId (extUpvalLow K) (extUpvalHigh K) = K ∧
    external_func_wrapper cb (some st) (extUpvalLow K) (extUpvalHigh K) =
      ((cb { st with currentCallbackId := K } K).1,
        some { (cb { st with currentCallbackId := K } K).2 with
          currentCallbackId := 0 }) ∧
    luau_getcallbackid (some { st with currentCallbackId := K }) = K ∧
    luau_getcallbackid
      (external_func_wrapper cb (some st) (extUpvalLow K) (extUpvalHigh K)).2 = 0 := by
  have hrec := reconId_extUpval K hK
  refine ⟨?_, hrec, ?_, rfl, ?_⟩
  · simp [luau_pushexternalfunc, modVM, hL]
  · simp [external_func_wrapper, hcb, hrec]
  · simp [external_func_wrapper, hcb, hrec, luau_getcallbackid]

/-- Witness for C1 at the concrete id 2^32 + 5 (both halves nonzero). -/
theorem c1_external_callback_id_witness :
    reconId (extUpvalLow 4294967301) (extUpvalHigh 4294967301) = 4294967301 ∧
    luau_getcallbackid
      (external_func_wrapper testCb (some testState)
        (extUpvalLow 4294967301) (extUpvalHigh 4294967301)).2 = 0 := by
  have h := c1_external_callback_id testState testVM testCb 4294967301
    (by decide) rfl rfl
  exact ⟨h.2.1, h.2.2.2.2⟩

/-- C6: with no dispatcher registered, or when the owning wrapper cannot
be recovered from the registry, an external-function invocation is a
no-op returning zero results, whatever the upvalues: the wrapper state
is not touched and the host dispatcher environment is never consulted. -/
theorem c6_no_dispatcher_noop :
    (∀ (cb : LuauExternalCallback) (u1 u2 : LuaValue),
        external_func_wrapper cb none u1 u2 = (0, none)) ∧
    (∀ (cb : LuauExternalCallback) (st : LuauStateD) (u1 u2 : LuaValue),
        st.hasExternalCallback = false →
        external_func_wrapper cb (some st) u1 u2 = (0, some st)) := by
  constructor
  · intro cb u1 u2
    rfl
  · intro cb st u1 u2 h
    simp [external_func_wrapper, h]

/-- Witness for C6: a concrete wrapper without a dispatcher. -/
theorem c6_no_dispatcher_noop_witness :
    external_func_wrapper testCb (some noCbState) .nil .nil = (0, some noCbState) :=
  c6_no_dispatcher_noop.2 testCb noCbState .nil .nil rfl

/-- Reading index -1 after a push sees exactly the pushed value. -/
theorem slotAt_push_top (vm : VM) (v : LuaValue) : slotAt (vmPush v vm) (-1) = v := by
  have h1 : resolveIdx (vmPush v vm) (-1) = some vm.stack.length := by
    simp only [resolveIdx, vmPush, List.length_append, List.length_cons,
      List.length_nil]
    norm_num
  unfold slotAt
  rw [h1]
  simp [vmPush, List.getD_eq_getElem?_getD, List.getElem?_concat_length]

/-- C2: pushing a 64-bit integer, a double, and a byte string (embedded
zero bytes included) and reading each back from the top of the stack
yields the original value bit-for-bit; the string comes back with its
exact length and content rather than by null-termination. -/
theorem c2_marshalling_roundtrip (st : LuauStateD) (vm : VM) (hL : st.L = some vm) :
    (∀ n : Int, -(2 ^ 63) ≤ n → n < 2 ^ 63 →
      luau_tointeger (luau_pushinteger (some st) n) (-1) = n) ∧
    (∀ bits : Nat, bits < 2 ^ 64 →
      luau_tonumber (luau_pushnumber (some st) bits) (-1) = bits) ∧
    (∀ s : Bytes,
      luau_tolstring (luau_pushlstring (some st) (some s) s.length) (-1) =
        (some s, s.length) ∧
      luau_tostring (luau_pushlstring (some st) (some s) s.length) (-1) = some s ∧
      luau_strlen (luau_pushlstring (some st) (some s) s.length) (-1) = s.length) := by
  refine ⟨?_, ?_, ?_⟩
  · intro n h1 h2
    simp [luau_pushinteger, luau_tointeger, modVM, readVM, hL, slotAt_push_top,
      lua_tointegerVal]
  · intro bits hb
    simp [luau_pushnumber, luau_tonumber, modVM, readVM, hL, slotAt_push_top,
      lua_tonumberVal]
  · intro s
    refine ⟨?_, ?_, ?_⟩
    · simp [luau_pushlstring, luau_tolstring, modVM, readVM, hL, slotAt_push_top]
    · simp [luau_pushlstring, luau_tostring, modVM, readVM, hL, slotAt_push_top]
    · simp [luau_pushlstring, luau_strlen, modVM, readVM, hL, slotAt_push_top,
        lua_objlen]

/-- Witness for C2: a negative 41-bit integer, a nonzero double pattern
and a string with an embedded zero byte round-trip on the concrete
wrapper. -/
theorem c2_marshalling_roundtrip_witness :
    luau_tointeger (luau_pushinteger (some testState) (-(2 ^ 40 + 7))) (-1) =
      -(2 ^ 40 + 7) ∧
    luau_tonumber (luau_pushnumber (some testState) 4614256656552045848) (-1) =
      4614256656552045848 ∧
    luau_tolstring
      (luau_pushlstring (some testState) (some [104, 0, 105]) 3) (-1) =
      (some [104, 0, 105], 3) := by
  have h := c2_marshalling_roundtrip testState testVM rfl
  exact ⟨h.1 (-(2 ^ 40 + 7)) (by decide) (by decide),
    h.2.1 4614256656552045848 (by decide),
    (h.2.2 [104, 0, 105]).1⟩

/-- C8: the memory-usage query combines the guest's whole-kilobyte
counter with the sub-kilobyte byte remainder as kilobytes times 1024
plus remainder — no truncation to whole kilobytes — and reports 0 on a
null wrapper or a wrapper with a null inner handle. -/
theorem c8_memoryusage_bytes (st : LuauStateD) (vm : VM) (hL : st.L = some vm) :
    luau_memoryusage (some st) = vm.gcKB * 1024 + vm.gcB ∧
    (vm.gcB < 1024 →
      luau_memoryusage (some st) / 1024 = vm.gcKB ∧
      luau_memoryusage (some st) % 1024 = vm.gcB) ∧
    luau_memoryusage none = 0 ∧
    (∀ st2 : LuauStateD, st2.L = none → luau_memoryusage (some st2) = 0) := by
  have hval : luau_memoryusage (some st) = vm.gcKB * 1024 + vm.gcB := by
    simp [luau_memoryusage, readVM, hL]
  refine ⟨hval, ?_, rfl, ?_⟩
  · intro hb
    rw [hval]
    omega
  · intro st2 h2
    simp [luau_memoryusage, readVM, h2]

/-- Witness for C8: the concrete VM reports 3 KB plus 200 bytes as 3272
bytes, not 3072. -/
theorem c8_memoryusage_bytes_witness :
    luau_memoryusage (some testState) = testVM.gcKB * 1024 + testVM.gcB :=
  (c8_memoryusage_bytes testState testVM rfl).1

/-- C9: resuming a coroutine already in a terminal error state executes
no guest code — the result does not consult the guest-execution oracle
at all — and reports the same terminal state with the coroutine
unchanged. -/
theorem c9_resume_terminal (exec : CoroExec) (co : LuauCoro)
    (frm : Option LuauCoro) (nargs : Nat)
    (h : isTerminalErrorStatus co.status = true) :
    luau_resume exec co frm nargs = (co.status, co) := by
  simp [luau_resume, h]

/-- A concrete coroutine in the runtime-error terminal state. -/
def errCoro : LuauCoro :=
  { status := .LUAU_COSTAT_ERRRUN, stack := [] }

/-- A concrete guest execution that would report successful completion
if it were ever consulted. -/
def testExec : CoroExec :=
  fun co _ => (.LUAU_COSTAT_OK, co)

/-- Witness for C9: resuming the errored coroutine ignores the
would-succeed execution and reports the runtime-error state again. -/
theorem c9_resume_terminal_witness :
    luau_resume testExec errCoro none 0 = (.LUAU_COSTAT_ERRRUN, errCoro) :=
  c9_resume_terminal testExec errCoro none 0 rfl

/-- Popping one value undoes a push. -/
theorem lua_pop_push (vm : VM) (v : LuaValue) : lua_pop (vmPush v vm) 1 = vm := by
  simp only [lua_pop, lua_settop, vmPush, List.length_append, List.length_cons,
    List.length_nil]
  norm_num
  rw [show ((vm.stack.length : Int) + 1 + -2 + 1).toNat = vm.stack.length from by omega]
  rw [List.take_left' rfl]

/-- Capturing the error when the top of the stack holds a string: the
string becomes the last error and is popped, restoring the stack. -/
theorem captureTopError_str (msg : String) (st : LuauStateD) (vm : VM) (bs : Bytes) :
    captureTopError msg st (vmPush (.str bs) vm) =
      { st with lastError := decodeBytes bs, L := some (vmPush (.str bs) vm |> (lua_pop · 1)) } := by
  simp [captureTopError, slotAt_push_top]

/-- A protected call of the freshly loaded chunk with zero arguments and
LUA_MULTRET results, when the guest call succeeds: the function slot is
replaced by all its results. -/
theorem lua_pcall_loaded_ok (rt : GuestRuntime) (vm : VM) (f : LuaValue)
    (vals : List LuaValue) (h : rt.call f [] = .ok vals) :
    lua_pcall rt (vmPush f vm) 0 (-1) = (0, { vm with stack := vm.stack ++ vals }) := by
  have hc : (0 : Int).toNat + 1 ≤ (vmPush f vm).stack.length := by
    simp [vmPush]
  have hbase : (vmPush f vm).stack.length - (0 : Int).toNat - 1 = vm.stack.length := by
    simp [vmPush]
  simp only [lua_pcall, if_pos hc, hbase]
  have hf : (vmPush f vm).stack.getD vm.stack.length .nil = f := by
    simp [vmPush, List.getD_eq_getElem?_getD, List.getElem?_concat_length]
  have hargs : (vmPush f vm).stack.drop (vm.stack.length + 1) = [] := by
    simp [vmPush, List.drop_left' (by simp : (vm.stack ++ [f]).length = vm.stack.length + 1)]
  have hrest : (vmPush f vm).stack.take vm.stack.length = vm.stack := by
    simp [vmPush, List.take_left' rfl]
  rw [hf, hargs, hrest, h]
  simp [vmPush]

/-- A protected call of the freshly loaded chunk, when the guest call
faults: the function slot is replaced by the error value and the status
is nonzero. -/
theorem lua_pcall_loaded_err (rt : GuestRuntime) (vm : VM) (f : LuaValue)
    (e : LuaValue) (h : rt.call f [] = .error e) :
    lua_pcall rt (vmPush f vm) 0 (-1) = (2, { vm with stack := vm.stack ++ [e] }) := by
  have hc : (0 : Int).toNat + 1 ≤ (vmPush f vm).stack.length := by
    simp [vmPush]
  have hbase : (vmPush f vm).stack.length - (0 : Int).toNat - 1 = vm.stack.length := by
    simp [vmPush]
  simp only [lua_pcall, if_pos hc, hbase]
  have hf : (vmPush f vm).stack.getD vm.stack.length .nil = f := by
    simp [vmPush, List.getD_eq_getElem?_getD, List.getElem?_concat_length]
  have hargs : (vmPush f vm).stack.drop (vm.stack.length + 1) = [] := by
    simp [vmPush, List.drop_left' (by simp : (vm.stack ++ [f]).length = vm.stack.length + 1)]
  have hrest : (vmPush f vm).stack.take vm.stack.length = vm.stack := by
    simp [vmPush, List.take_left' rfl]
  rw [hf, hargs, hrest, h]
  simp [vmPush]

/-- C4: luau_dostring surfaces its four outcomes through the returned
code: LUAU_ERR_INVALID for a null wrapper, null inner handle, or null
source, with no guest interaction (the result is the same whatever the
compiler and runtime oracles answer and the wrapper is untouched);
LUAU_ERR_COMPILE for a compile failure; LUAU_ERR_RUNTIME for a runtime
failure of the loaded chunk; LUAU_OK on success with the results left on
the stack — and the three failure codes are pairwise distinct, so the
caller can branch on them. -/
theorem c4_dostring_outcomes :
    (∀ (comp : GuestCompiler) (rt : GuestRuntime) (source : Option Bytes)
        (len : Nat) (cn : Option String) (opt : Int),
      luau_dostring comp rt none source len cn opt = (.LUAU_ERR_INVALID, none)) ∧
    (∀ (comp : GuestCompiler) (rt : GuestRuntime) (st : LuauStateD)
        (source : Option Bytes) (len : Nat) (cn : Option String) (opt : Int),
      st.L = none →
      luau_dostring comp rt (some st) source len cn opt =
        (.LUAU_ERR_INVALID, some st)) ∧
    (∀ (comp : GuestCompiler) (rt : GuestRuntime) (st : LuauStateD) (vm : VM)
        (len : Nat) (cn : Option String) (opt : Int),
      st.L = some vm →
      luau_dostring comp rt (some st) none len cn opt =
        (.LUAU_ERR_INVALID, some st)) ∧
    (∀ (comp : GuestCompiler) (rt : GuestRuntime) (st : LuauStateD) (vm : VM)
        (src : Bytes) (len : Nat) (cn : Option String) (opt : Int),
      st.L = some vm →
      comp.compile (src.take (effSourceLen src len)) opt = none →
      luau_dostring comp rt (some st) (some src) len cn opt =
        (.LUAU_ERR_COMPILE, some { st with lastError := "Compilation failed" })) ∧
    (∀ (comp : GuestCompiler) (rt : GuestRuntime) (st : LuauStateD) (vm : VM)
        (src bc : Bytes) (len : Nat) (cn : Option String) (opt : Int)
        (f : LuaValue) (bs : Bytes),
      st.L = some vm →
      comp.compile (src.take (effSourceLen src len)) opt = some bc →
      rt.load (cn.getD "=chunk") bc = .ok f →
      rt.call f [] = .error (.str bs) →
      luau_dostring comp rt (some st) (some src) len cn opt =
        (.LUAU_ERR_RUNTIME,
          some { st with lastError := decodeBytes bs, L := some vm })) ∧
    (∀ (comp : GuestCompiler) (rt : GuestRuntime) (st : LuauStateD) (vm : VM)
        (src bc : Bytes) (len : Nat) (cn : Option String) (opt : Int)
        (f : LuaValue) (vals : List LuaValue),
      st.L = some vm →
      comp.compile (src.take (effSourceLen src len)) opt = some bc →
      rt.load (cn.getD "=chunk") bc = .ok f →
      rt.call f [] = .ok vals →
      luau_dostring comp rt (some st) (some src) len cn opt =
        (.LUAU_OK,
          some { st with lastError := "",
                         L := some { vm with stack := vm.stack ++ vals } })) ∧
    (LuauError.LUAU_ERR_INVALID ≠ .LUAU_ERR_COMPILE ∧
      LuauError.LUAU_ERR_INVALID ≠ .LUAU_ERR_RUNTIME ∧
      LuauError.LUAU_ERR_COMPILE ≠ .LUAU_ERR_RUNTIME ∧
      LuauError.LUAU_OK ≠ .LUAU_ERR_INVALID ∧
      LuauError.LUAU_OK ≠ .LUAU_ERR_COMPILE ∧
      LuauError.LUAU_OK ≠ .LUAU_ERR_RUNTIME) := by
  refine ⟨?_, ?_, ?_, ?_, ?_, ?_, by decide⟩
  · intro comp rt source len cn opt
    rfl
  · intro comp rt st source len cn opt hL
    simp [luau_dostring, hL]
  · intro comp rt st vm len cn opt hL
    simp [luau_dostring, hL]
  · intro comp rt st vm src len cn opt hL hc
    simp [luau_dostring, hL, hc]
  · intro comp rt st vm src bc len cn opt f bs hL hc hload hcall
    simp only [luau_dostring, hL, hc, lua_load, hload]
    rw [lua_pcall_loaded_err rt vm f _ hcall]
    have : ({ vm with stack := vm.stack ++ [LuaValue.str bs] } : VM) =
        vmPush (.str bs) vm := rfl
    rw [this]
    simp [captureTopError_str, lua_pop_push]
  · intro comp rt st vm src bc len cn opt f vals hL hc hload hcall
    simp only [luau_dostring, hL, hc, lua_load, hload]
    rw [lua_pcall_loaded_ok rt vm f vals hcall]
    simp

/-- A runtime that loads every chunk into a function object and whose
calls fault with the guest error string err. -/
def rtCallFails : GuestRuntime :=
  { load := fun _ bc => .ok (.loadedfn bc),
    call := fun _ _ => .error (.str [101, 114, 114]) }

/-- A compiler that accepts everything, emitting a fixed buffer. -/
def compOk : GuestCompiler :=
  { compile := fun _ _ => some [27, 1, 2] }

/-- Witness for C4: on the concrete wrapper, a script whose execution
faults yields LUAU_ERR_RUNTIME with the captured message and a restored
stack. -/
theorem c4_dostring_outcomes_witness :
    luau_dostring compOk rtCallFails (some testState) (some [32]) 1 none 1 =
      (.LUAU_ERR_RUNTIME,
        some { testState with lastError := decodeBytes [101, 114, 114],
                              L := some testVM }) :=
  c4_dostring_outcomes.2.2.2.2.1 compOk rtCallFails testState testVM [32] [27, 1, 2]
    1 none 1 (.loadedfn [27, 1, 2]) [101, 114, 114] rfl rfl rfl rfl

/-- A runtime whose loader always fails, pushing the guest error string
b-a-d. -/
def rtLoadFails : GuestRuntime :=
  { load := fun _ _ => .error (.str [98, 97, 100]),
    call := fun _ _ => .ok [] }

/-- A compiler that always fails with a null buffer. -/
def compFails : GuestCompiler :=
  { compile := fun _ _ => none }

/-- C5 counterexample: the claim asserts that load failure carries a
LoadFailed code distinct from the compile-failure code. On the code both
a failing luau_loadbytecode and a failing luau_compile return the single
code LUAU_ERR_COMPILE (the LuauError enum has no LoadFailed member), so
at this concrete input the load-failure code is not distinct from the
compile-failure code. -/
theorem c5_load_error_code_counterexample :
    (luau_loadbytecode rtLoadFails (some testState) (some [1, 2]) 2 none).1 =
      .LUAU_ERR_COMPILE ∧
    (luau_compile compFails (some [32]) 1 0 true true).1 = .LUAU_ERR_COMPILE ∧
    ¬ (luau_loadbytecode rtLoadFails (some testState) (some [1, 2]) 2 none).1 ≠
        (luau_compile compFails (some [32]) 1 0 true true).1 := by
  refine ⟨rfl, rfl, ?_⟩
  intro h
  exact h rfl

/-- C5 as amended: luau_loadbytecode returns LUAU_OK leaving the loaded
function object pushed on the VM stack on success; on a load failure it
returns LUAU_ERR_COMPILE — the same code compile failure uses, there is
no distinct LoadFailed code — capturing the error string from the stack
into the wrapper's last-error field and popping it, which restores the
stack. -/
theorem c5_loadbytecode_behavior (rt : GuestRuntime) (st : LuauStateD) (vm : VM)
    (bc : Bytes) (blen : Nat) (cn : Option String) (hL : st.L = some vm) :
    (∀ f, rt.load (cn.getD "=chunk") (bc.take blen) = .ok f →
      luau_loadbytecode rt (some st) (some bc) blen cn =
        (.LUAU_OK, some { st with lastError := "", L := some (vmPush f vm) })) ∧
    (∀ bs, rt.load (cn.getD "=chunk") (bc.take blen) = .error (.str bs) →
      luau_loadbytecode rt (some st) (some bc) blen cn =
        (.LUAU_ERR_COMPILE,
          some { st with lastError := decodeBytes bs, L := some vm })) ∧
    (∀ e, rt.load (cn.getD "=chunk") (bc.take blen) = .error e →
      (luau_loadbytecode rt (some st) (some bc) blen cn).1 = .LUAU_ERR_COMPILE) := by
  refine ⟨?_, ?_, ?_⟩
  · intro f hload
    simp [luau_loadbytecode, hL, lua_load, hload]
  · intro bs hload
    simp only [luau_loadbytecode, hL, lua_load, hload]
    norm_num
    simp [captureTopError, slotAt_push_top, lua_pop_push]
  · intro e hload
    simp [luau_loadbytecode, hL, lua_load, hload]

/-- Witness for C5 as amended: the concrete failing loader produces
LUAU_ERR_COMPILE, the captured message and the untouched stack. -/
theorem c5_loadbytecode_behavior_witness :
    luau_loadbytecode rtLoadFails (some testState) (some [1, 2]) 2 none =
      (.LUAU_ERR_COMPILE,
        some { testState with lastError := decodeBytes [98, 97, 100],
                              L := some testVM }) :=
  (c5_loadbytecode_behavior rtLoadFails testState testVM [1, 2] 2 none rfl).2.1
    [98, 97, 100] rfl

/-- C7: whenever the guest compiler hands luau_compile a non-empty
buffer whose first byte is zero, the wrapper treats it as an encoded
compile error: it returns LUAU_ERR_COMPILE and hands the caller no
buffer (NULL, 0) — in addition to the compiler's own failure signal of a
null buffer or a zero-length buffer, which receive the same treatment. -/
theorem c7_zero_first_byte_compile_error (comp : GuestCompiler) (source : Bytes)
    (len : Nat) (opt : Int) :
    (∀ bs, comp.compile (source.take len) opt = some bs → bs.head? = some 0 →
      luau_compile comp (some source) len opt true true =
        (.LUAU_ERR_COMPILE, some (none, 0))) ∧
    (comp.compile (source.take len) opt = none →
      luau_compile comp (some source) len opt true true =
        (.LUAU_ERR_COMPILE, some (none, 0))) ∧
    (comp.compile (source.take len) opt = some [] →
      luau_compile comp (some source) len opt true true =
        (.LUAU_ERR_COMPILE, some (none, 0))) := by
  refine ⟨?_, ?_, ?_⟩
  · intro bs hc hz
    cases bs with
    | nil => cases hz
    | cons b rest =>
      simp only [List.head?_cons, Option.some.injEq] at hz
      subst hz
      simp [luau_compile, hc]
  · intro hc
    simp [luau_compile, hc]
  · intro hc
    simp [luau_compile, hc]

/-- A compiler that returns a non-empty buffer starting with a zero
byte (the guest convention for an encoded compile error). -/
def compZeroByte : GuestCompiler :=
  { compile := fun _ _ => some [0, 42, 42] }

/-- Witness for C7: the zero-first-byte buffer is rejected with
LUAU_ERR_COMPILE and empty outputs. -/
theorem c7_zero_first_byte_compile_error_witness :
    luau_compile compZeroByte (some [32]) 1 0 true true =
      (.LUAU_ERR_COMPILE, some (none, 0)) :=
  (c7_zero_first_byte_compile_error compZeroByte [32] 1 0).1 [0, 42, 42] rfl rfl

/-- C10: whenever luau_compile answers LUAU_ERR_COMPILE both output
parameters are written with the well-defined empty result (NULL buffer,
0 length), never left dangling; and when it rejects null inputs with
LUAU_ERR_INVALID — null source or either output pointer null — the
output parameters are not written at all. -/
theorem c10_compile_outputs :
    (∀ (comp : GuestCompiler) (source : Option Bytes) (len : Nat) (opt : Int)
        (b1 b2 : Bool),
      (luau_compile comp source len opt b1 b2).1 = .LUAU_ERR_COMPILE →
      (luau_compile comp source len opt b1 b2).2 = some (none, 0)) ∧
    (∀ (comp : GuestCompiler) (len : Nat) (opt : Int) (b1 b2 : Bool),
      luau_compile comp none len opt b1 b2 = (.LUAU_ERR_INVALID, none)) ∧
    (∀ (comp : GuestCompiler) (source : Bytes) (len : Nat) (opt : Int) (b2 : Bool),
      luau_compile comp (some source) len opt false b2 = (.LUAU_ERR_INVALID, none)) ∧
    (∀ (comp : GuestCompiler) (source : Bytes) (len : Nat) (opt : Int) (b1 : Bool),
      luau_compile comp (some source) len opt b1 false = (.LUAU_ERR_INVALID, none)) := by
  refine ⟨?_, ?_, ?_, ?_⟩
  · intro comp source len opt b1 b2 h
    cases source with
    | none => simp [luau_compile] at h
    | some src =>
      by_cases hb1 : b1 = false
      · simp [luau_compile, hb1] at h
      · by_cases hb2 : b2 = false
        · simp [luau_compile, hb2] at h
        · simp only [luau_compile, hb1, hb2] at h ⊢
          norm_num at h ⊢
          cases hc : comp.compile (src.take len) opt with
          | none => simp [hc]
          | some bs =>
            simp only [hc] at h ⊢
            cases bs with
            | nil => simp
            | cons b rest =>
              by_cases hz : b = 0
              · simp [hz]
              · simp [hz] at h
  · intro comp len opt b1 b2
    rfl
  · intro comp source len opt b2
    simp [luau_compile]
  · intro comp source len opt b1
    simp [luau_compile]

/-- Witness for C10: the always-failing compiler routes through the
compile-error path and writes the empty outputs. -/
theorem c10_compile_outputs_witness :
    (luau_compile compFails (some [32]) 1 0 true true).2 = some (none, 0) :=
  c10_compile_outputs.1 compFails (some [32]) 1 0 true true rfl

/-- The null guard of every value-returning wrapper call. -/
theorem readVM_null {α : Type} (st : LuauStateD) (hL : st.L = none) (d : α)
    (f : VM → α) : readVM (some st) d f = d := by
  simp [readVM, hL]

/-- The null guard of every state-mutating wrapper call. -/
theorem modVM_null (st : LuauStateD) (hL : st.L = none) (f : VM → VM) :
    modVM (some st) f = some st := by
  simp [modVM, hL]

/-- C3: every exported wrapper operation called on a NULL wrapper, or on
a wrapper whose inner VM handle is null, is a no-op or answers its
documented zero/absent default (0 for counts and reads, nil/true for the
is-nil query, NULL for pointers, the unchanged wrapper for mutations),
uniformly across the stack, type, push, read, table, error, memory and
debug families; the error query and clear, which touch only bridge
metadata, answer absence and leave an uninitialized wrapper unchanged. -/
theorem c3_null_safety (st : LuauStateD) (hL : st.L = none) :
    luau_gettop (some st) = 0 ∧
    (∀ idx, luau_settop (some st) idx = some st) ∧
    (∀ n, luau_pop (some st) n = some st) ∧
    (∀ idx, luau_pushvalue (some st) idx = some st) ∧
    (∀ idx, luau_remove (some st) idx = some st) ∧
    (∀ idx, luau_insert (some st) idx = some st) ∧
    (∀ idx, luau_type (some st) idx = .LUAU_TYPE_NIL) ∧
    (∀ t, luau_typename (some st) t = "unknown") ∧
    (∀ idx, luau_isnil (some st) idx = 1) ∧
    (∀ idx, luau_isboolean (some st) idx = 0) ∧
    (∀ idx, luau_isnumber (some st) idx = 0) ∧
    (∀ idx, luau_isstring (some st) idx = 0) ∧
    (∀ idx, luau_istable (some st) idx = 0) ∧
    (∀ idx, luau_isfunction (some st) idx = 0) ∧
    luau_pushnil (some st) = some st ∧
    (∀ b, luau_pushboolean (some st) b = some st) ∧
    (∀ bits, luau_pushnumber (some st) bits = some st) ∧
    (∀ n, luau_pushinteger (some st) n = some st) ∧
    (∀ sp, luau_pushstring (some st) sp = some st) ∧
    (∀ sp len, luau_pushlstring (some st) sp len = some st) ∧
    (∀ fn, luau_pushcfunction (some st) fn = some st) ∧
    (∀ idx, luau_toboolean (some st) idx = 0) ∧
    (∀ idx, luau_tonumber (some st) idx = 0) ∧
    (∀ idx, luau_tointeger (some st) idx = 0) ∧
    (∀ idx, luau_tostring (some st) idx = none) ∧
    (∀ idx, luau_strlen (some st) idx = 0) ∧
    (∀ idx, luau_tolstring (some st) idx = (none, 0)) ∧
    luau_newtable (some st) = some st ∧
    (∀ narr nrec, luau_createtable (some st) narr nrec = some st) ∧
    (∀ idx k, luau_getfield (some st) idx k = some st) ∧
    (∀ idx k, luau_setfield (some st) idx k = some st) ∧
    (∀ idx, luau_gettable (some st) idx = some st) ∧
    (∀ idx, luau_settable (some st) idx = some st) ∧
    (∀ idx, luau_rawget (some st) idx = some st) ∧
    (∀ idx, luau_rawset (some st) idx = some st) ∧
    (∀ idx n, luau_rawgeti (some st) idx n = some st) ∧
    (∀ idx n, luau_rawseti (some st) idx n = some st) ∧
    (∀ idx, luau_objlen (some st) idx = 0) ∧
    (∀ idx, luau_next (some st) idx = (0, some st)) ∧
    (∀ nm, luau_getglobal (some st) nm = some st) ∧
    (∀ nm, luau_setglobal (some st) nm = some st) ∧
    (∀ m, luau_error (some st) m = (some st, false)) ∧
    luau_memoryusage (some st) = 0 ∧
    luau_gc (some st) = some st ∧
    luau_dumpstack (some st) = "" ∧
    (∀ e, luau_checkstack (some st) e = 0) ∧
    (st.lastError = "" →
      luau_geterror (some st) = none ∧ luau_clearerror (some st) = some st) ∧
    luau_gettop none = 0 ∧
    (∀ idx, luau_settop none idx = none) ∧
    (∀ n, luau_pop none n = none) ∧
    (∀ idx, luau_pushvalue none idx = none) ∧
    (∀ idx, luau_remove none idx = none) ∧
    (∀ idx, luau_insert none idx = none) ∧
    (∀ idx, luau_type none idx = .LUAU_TYPE_NIL) ∧
    (∀ t, luau_typename none t = "unknown") ∧
    (∀ idx, luau_isnil none idx = 1) ∧
    (∀ idx, luau_isboolean none idx = 0) ∧
    (∀ idx, luau_isnumber none idx = 0) ∧
    (∀ idx, luau_isstring none idx = 0) ∧
    (∀ idx, luau_istable none idx = 0) ∧
    (∀ idx, luau_isfunction none idx = 0) ∧
    luau_pushnil none = none ∧
    (∀ b, luau_pushboolean none b = none) ∧
    (∀ bits, luau_pushnumber none bits = none) ∧
    (∀ n, luau_pushinteger none n = none) ∧
    (∀ sp, luau_pushstring none sp = none) ∧
    (∀ sp len, luau_pushlstring none sp len = none) ∧
    (∀ fn, luau_pushcfunction none fn = none) ∧
    (∀ idx, luau_toboolean none idx = 0) ∧
    (∀ idx, luau_tonumber none idx = 0) ∧
    (∀ idx, luau_tointeger none idx = 0) ∧
    (∀ idx, luau_tostring none idx = none) ∧
    (∀ idx, luau_strlen none idx = 0) ∧
    (∀ idx, luau_tolstring none idx = (none, 0)) ∧
    luau_newtable none = none ∧
    (∀ narr nrec, luau_createtable none narr nrec = none) ∧
    (∀ idx k, luau_getfield none idx k = none) ∧
    (∀ idx k, luau_setfield none idx k = none) ∧
    (∀ idx, luau_gettable none idx = none) ∧
    (∀ idx, luau_settable none idx = none) ∧
    (∀ idx, luau_rawget none idx = none) ∧
    (∀ idx, luau_rawset none idx = none) ∧
    (∀ idx n, luau_rawgeti none idx n = none) ∧
    (∀ idx n, luau_rawseti none idx n = none) ∧
    (∀ idx, luau_objlen none idx = 0) ∧
    (∀ idx, luau_next none idx = (0, none)) ∧
    (∀ nm, luau_getglobal none nm = none) ∧
    (∀ nm, luau_setglobal none nm = none) ∧
    (∀ m, luau_error none m = (none, false)) ∧
    luau_memoryusage none = 0 ∧
    luau_gc none = none ∧
    luau_dumpstack none = "" ∧
    (∀ e, luau_checkstack none e = 0) ∧
    luau_geterror none = none ∧
    luau_clearerror none = none := by
  refine ⟨readVM_null st hL _ _,
    fun idx => modVM_null st hL _,
    fun n => modVM_null st hL _,
    fun idx => modVM_null st hL _,
    fun idx => modVM_null st hL _,
    fun idx => modVM_null st hL _,
    fun idx => readVM_null st hL _ _,
    fun t => readVM_null st hL _ _,
    fun idx => readVM_null st hL _ _,
    fun idx => readVM_null st hL _ _,
    fun idx => readVM_null st hL _ _,
    fun idx => readVM_null st hL _ _,
    fun idx => readVM_null st hL _ _,
    fun idx => readVM_null st hL _ _,
    modVM_null st hL _,
    fun b => modVM_null st hL _,
    fun bits => modVM_null st hL _,
    fun n => modVM_null st hL _,
    fun sp => modVM_null st hL _,
    fun sp len => modVM_null st hL _,
    fun fn => ?_,
    fun idx => readVM_null st hL _ _,
    fun idx => readVM_null st hL _ _,
    fun idx => readVM_null st hL _ _,
    fun idx => readVM_null st hL _ _,
    fun idx => readVM_null st hL _ _,
    fun idx => readVM_null st hL _ _,
    modVM_null st hL _,
    fun narr nrec => modVM_null st hL _,
    fun idx k => ?_,
    fun idx k => ?_,
    fun idx => modVM_null st hL _,
    fun idx => modVM_null st hL _,
    fun idx => modVM_null st hL _,
    fun idx => modVM_null st hL _,
    fun idx n => modVM_null st hL _,
    fun idx n => modVM_null st hL _,
    fun idx => readVM_null st hL _ _,
    fun idx => ?_,
    fun nm => ?_,
    fun nm => ?_,
    fun m => ?_,
    readVM_null st hL _ _,
    modVM_null st hL _,
    readVM_null st hL _ _,
    fun e => readVM_null st hL _ _,
    fun h => ⟨?_, ?_⟩,
    rfl,
    fun idx => rfl,
    fun n => rfl,
    fun idx => rfl,
    fun idx => rfl,
    fun idx => rfl,
    fun idx => rfl,
    fun t => rfl,
    fun idx => rfl,
    fun idx => rfl,
    fun idx => rfl,
    fun idx => rfl,
    fun idx => rfl,
    fun idx => rfl,
    rfl,
    fun b => rfl,
    fun bits => rfl,
    fun n => rfl,
    fun sp => rfl,
    fun sp len => rfl,
    fun fn => ?_,
    fun idx => rfl,
    fun idx => rfl,
    fun idx => rfl,
    fun idx => rfl,
    fun idx => rfl,
    fun idx => rfl,
    rfl,
    fun narr nrec => rfl,
    fun idx k => ?_,
    fun idx k => ?_,
    fun idx => rfl,
    fun idx => rfl,
    fun idx => rfl,
    fun idx => rfl,
    fun idx n => rfl,
    fun idx n => rfl,
    fun idx => rfl,
    fun idx => rfl,
    fun nm => ?_,
    fun nm => ?_,
    fun m => rfl,
    rfl,
    rfl,
    rfl,
    fun e => rfl,
    rfl,
    rfl⟩
  · cases fn with
    | none => rfl
    | some f => exact modVM_null st hL _
  · cases k with
    | none => rfl
    | some s2 => exact modVM_null st hL _
  · cases k with
    | none => rfl
    | some s2 => exact modVM_null st hL _
  · simp [luau_next, hL]
  · cases nm with
    | none => rfl
    | some s2 => exact modVM_null st hL _
  · cases nm with
    | none => rfl
    | some s2 => exact modVM_null st hL _
  · simp [luau_error, hL]
  · simp [luau_geterror, h]
  · cases st with
    | mk L0 e0 c0 i0 => simp_all [luau_clearerror]
  · cases fn with
    | none => rfl
    | some f => rfl
  · cases k with
    | none => rfl
    | some s2 => rfl
  · cases k with
    | none => rfl
    | some s2 => rfl
  · cases nm with
    | none => rfl
    | some s2 => rfl
  · cases nm with
    | none => rfl
    | some s2 => rfl

/-- A concrete wrapper whose inner VM handle is null. -/
def nullVMState : LuauStateD :=
  { L := none, lastError := "", hasExternalCallback := false,
    currentCallbackId := 0 }

/-- Witness for C3: the top query on the concrete null-handle wrapper
answers 0. -/
theorem c3_null_safety_witness : luau_gettop (some nullVMState) = 0 :=
  (c3_null_safety nullVMState rfl).1

end Luau









